import Mathlib

/-!
Verification of the noise-gate core: a three-state hysteresis automaton
(`Open`, `Closing`, `Closed`), a per-frame amplitude test, and a drive loop
that forwards frames to a sink and signals boundaries of recorded spans.

Samples are embedded as integers in the signed numeric domain, with the
equilibrium (silence reference point) at zero; a frame is a list of samples,
one per channel.  The sink is embedded as the ordered list of calls the drive
loop makes to it.
-/

namespace NG

/-- A sample in the signed numeric domain. -/
abbrev Sample := Int

/-- The equilibrium (zero point) of the signed sample domain. -/
def EQUILIBRIUM : Sample := 0

/-- A frame: one sample per channel. -/
abbrev Frame := List Sample

/-- `abs` from the source: `x` if `x >= zero`, else `-x`. -/
def abs (sample : Sample) : Sample :=
  let zero := EQUILIBRIUM
  if sample ≥ zero then sample else -sample

/-- `below_threshold` from the source: every channel's sample lies strictly
between `EQUILIBRIUM - abs threshold` and `abs threshold`. -/
def below_threshold (frame : Frame) (threshold : Sample) : Bool :=
  let t := NG.abs threshold
  let negated_threshold := EQUILIBRIUM - t
  frame.all (fun sample => decide (negated_threshold < sample ∧ sample < t))

/-- The gate automaton's state. -/
inductive State : Type
  | Open : State
  | Closing (remaining_samples : Nat) : State
  | Closed : State
deriving DecidableEq

/-- `next_state` from the source: the per-frame transition function. -/
def next_state (state : State) (frame : Frame) (open_threshold : Sample)
    (release_time : Nat) : State :=
  match state with
  | State.Open =>
    if below_threshold frame open_threshold then
      State.Closing release_time
    else
      State.Open
  | State.Closing remaining_samples =>
    if below_threshold frame open_threshold then
      if remaining_samples = 0 then
        State.Closed
      else
        State.Closing (remaining_samples - 1)
    else
      State.Open
  | State.Closed =>
    if below_threshold frame open_threshold then
      State.Closed
    else
      State.Open

/-- The gate: threshold and release time fixed at construction, plus the
automaton state. -/
structure NoiseGate where
  open_threshold : Sample
  release_time : Nat
  state : State
deriving DecidableEq

/-- `NoiseGate::new` from the source: a fresh gate starts `Closed`. -/
def NoiseGate.new (open_threshold : Sample) (release_time : Nat) : NoiseGate :=
  { open_threshold := open_threshold
    release_time := release_time
    state := State.Closed }

/-- `NoiseGate::is_open` from the source. -/
def NoiseGate.is_open (gate : NoiseGate) : Bool :=
  match gate.state with
  | State.Open => true
  | State.Closing _ => true
  | State.Closed => false

/-- `NoiseGate::is_closed` from the source. -/
def NoiseGate.is_closed (gate : NoiseGate) : Bool :=
  ! gate.is_open

/-- A call the drive loop makes on the sink, in order. -/
inductive Event : Type
  | record (frame : Frame) : Event
  | end_of_transmission : Event
deriving DecidableEq

/-- One iteration of the `process_frames` loop body: advance the state, then
record the frame if the gate is open, or signal the end of a transmission if
the gate just closed. -/
def step (gate : NoiseGate) (frame : Frame) : NoiseGate × List Event :=
  let previously_open := gate.is_open
  let gate' :=
    { gate with
        state := next_state gate.state frame gate.open_threshold
          gate.release_time }
  if gate'.is_open then
    (gate', [Event.record frame])
  else if previously_open then
    (gate', [Event.end_of_transmission])
  else
    (gate', [])

/-- `NoiseGate::process_frames` from the source: fold the loop body over the
frames in input order, returning the final gate and the ordered sink calls. -/
def NoiseGate.process_frames (gate : NoiseGate) (frames : List Frame) :
    NoiseGate × List Event :=
  match frames with
  | [] => (gate, [])
  | frame :: rest =>
    let p := step gate frame
    let q := p.1.process_frames rest
    (q.1, p.2 ++ q.2)

end NG

/-! ### Helper lemmas -/

lemma NG_abs_eq (s : NG.Sample) : NG.abs s = |s| := by
  rw [show NG.abs s = if s ≥ (0 : NG.Sample) then s else -s from rfl]
  split
  next h => exact (abs_of_nonneg h).symm
  next h => exact (abs_of_neg (lt_of_not_ge h)).symm

lemma below_threshold_iff (frame : NG.Frame) (t : NG.Sample) :
    NG.below_threshold frame t = true ↔ ∀ s ∈ frame, |s| < |t| := by
  simp only [NG.below_threshold, NG.EQUILIBRIUM, List.all_eq_true,
    decide_eq_true_eq, NG_abs_eq, zero_sub]
  constructor
  · intro h s hs
    exact abs_lt.mpr (h s hs)
  · intro h s hs
    exact abs_lt.mp (h s hs)

/-! ### Theorems settling the claims -/

/-- Claim C1: the transition function `next_state` implements exactly the
seven-row table: from `Open` a below-threshold frame yields
`Closing release_time` and any other frame keeps `Open`; from `Closing r`
a below-threshold frame yields `Closed` when `r = 0` and `Closing (r-1)`
when `r > 0`, while a non-below-threshold frame yields `Open`; from
`Closed` a below-threshold frame keeps `Closed` and any other frame
yields `Open`. -/
theorem next_state_matches_table (f : NG.Frame) (t : NG.Sample)
    (rt r : Nat) :
    NG.next_state NG.State.Open f t rt =
      (if NG.below_threshold f t then NG.State.Closing rt
       else NG.State.Open) ∧
    NG.next_state (NG.State.Closing r) f t rt =
      (if NG.below_threshold f t then
        (if r = 0 then NG.State.Closed else NG.State.Closing (r - 1))
       else NG.State.Open) ∧
    NG.next_state NG.State.Closed f t rt =
      (if NG.below_threshold f t then NG.State.Closed
       else NG.State.Open) :=
  ⟨rfl, rfl, rfl⟩

/-- Claim C3: `below_threshold` is true iff every channel's sample magnitude
is strictly less than the threshold's magnitude; hence a frame with any
channel of magnitude at least the threshold's magnitude is not below
threshold, and a sample exactly at the threshold magnitude counts as
signal. -/
theorem below_threshold_spec (frame : NG.Frame) (t : NG.Sample) :
    (NG.below_threshold frame t = true ↔ ∀ s ∈ frame, |s| < |t|) ∧
    ((∃ s ∈ frame, |t| ≤ |s|) → NG.below_threshold frame t = false) ∧
    (∀ s ∈ frame, |s| = |t| → NG.below_threshold frame t = false) := by
  refine ⟨below_threshold_iff frame t, ?_, ?_⟩
  · rintro ⟨s, hs, hle⟩
    rcases hb : NG.below_threshold frame t with _ | _
    · rfl
    · exact absurd ((below_threshold_iff frame t).mp hb s hs)
        (not_lt.mpr hle)
  · intro s hs heq
    rcases hb : NG.below_threshold frame t with _ | _
    · rfl
    · exact absurd ((below_threshold_iff frame t).mp hb s hs)
        (by rw [heq]; exact lt_irrefl _)

/-- Witness for C3: the single-channel frame `[100]` with threshold `100`
is not below threshold (equal magnitude counts as signal), while `[50]`
is below threshold. -/
theorem below_threshold_spec_witness :
    NG.below_threshold [(100 : NG.Sample)] 100 = false ∧
    NG.below_threshold [(50 : NG.Sample)] 100 = true :=
  ⟨(below_threshold_spec [(100 : NG.Sample)] 100).2.2 100 (by simp)
      (by decide),
   (below_threshold_spec [(50 : NG.Sample)] 100).1.mpr (by decide)⟩

/-- Claim C9: a freshly constructed gate is `Closed`; `is_open` is true
exactly on `Open` and `Closing` states, and `is_closed` is the exact
negation of `is_open`.  (Both queries are pure functions of the gate and
cannot mutate it.) -/
theorem new_closed_and_queries (t : NG.Sample) (rt : Nat)
    (g : NG.NoiseGate) :
    (NG.NoiseGate.new t rt).state = NG.State.Closed ∧
    (g.is_open = true ↔
      (g.state = NG.State.Open ∨ ∃ r, g.state = NG.State.Closing r)) ∧
    g.is_closed = ! g.is_open := by
  refine ⟨rfl, ?_, rfl⟩
  cases hs : g.state <;> simp [NG.NoiseGate.is_open, hs]

lemma step_fst (g : NG.NoiseGate) (f : NG.Frame) :
    (NG.step g f).1 =
      { g with
          state := NG.next_state g.state f g.open_threshold
            g.release_time } := by
  rcases h1 : ({ g with
      state := NG.next_state g.state f g.open_threshold g.release_time } :
        NG.NoiseGate).is_open with _ | _ <;>
    rcases h2 : g.is_open with _ | _ <;>
    simp [NG.step, h1, h2]

lemma step_snd (g : NG.NoiseGate) (f : NG.Frame) :
    (NG.step g f).2 =
      (if ({ g with
          state := NG.next_state g.state f g.open_threshold
            g.release_time } : NG.NoiseGate).is_open then
        [NG.Event.record f]
       else if g.is_open then [NG.Event.end_of_transmission]
       else []) := by
  rcases h1 : ({ g with
      state := NG.next_state g.state f g.open_threshold g.release_time } :
        NG.NoiseGate).is_open with _ | _ <;>
    rcases h2 : g.is_open with _ | _ <;>
    simp [NG.step, h1, h2]

lemma process_frames_cons (g : NG.NoiseGate) (f : NG.Frame)
    (rest : List NG.Frame) :
    g.process_frames (f :: rest) =
      (((NG.step g f).1.process_frames rest).1,
        (NG.step g f).2 ++ ((NG.step g f).1.process_frames rest).2) := rfl

lemma process_frames_nil (g : NG.NoiseGate) :
    g.process_frames [] = (g, []) := rfl

lemma process_frames_append (g : NG.NoiseGate) (a b : List NG.Frame) :
    g.process_frames (a ++ b) =
      (((g.process_frames a).1.process_frames b).1,
        (g.process_frames a).2 ++
          ((g.process_frames a).1.process_frames b).2) := by
  induction a generalizing g with
  | nil => simp [process_frames_nil]
  | cons f rest ih =>
    simp [List.cons_append, process_frames_cons, ih, List.append_assoc]

/-- Claim C2: `process_frames` handles each frame in input order: it advances
the state exactly once via `next_state`; when the new state is open
(`Open` or `Closing`) it records the original frame; otherwise, when the
gate was open before the frame and is now closed, it emits exactly one
`end_of_transmission`; and when the gate was closed and stays closed it
makes no sink call for that frame. -/
theorem process_frames_per_frame (g : NG.NoiseGate) (f : NG.Frame)
    (rest : List NG.Frame) :
    ∃ g' : NG.NoiseGate,
      g'.open_threshold = g.open_threshold ∧
      g'.release_time = g.release_time ∧
      g'.state = NG.next_state g.state f g.open_threshold g.release_time ∧
      g.process_frames (f :: rest) =
        ((g'.process_frames rest).1,
          (if g'.is_open then [NG.Event.record f]
           else if g.is_open then [NG.Event.end_of_transmission]
           else []) ++ (g'.process_frames rest).2) := by
  refine ⟨(NG.step g f).1, ?_, ?_, ?_, ?_⟩
  · rw [step_fst]
  · rw [step_fst]
  · rw [step_fst]
  · rw [process_frames_cons, step_snd, step_fst]

/-- Claim C6: processing two batches in sequence is the same as processing
their concatenation in one call: the final gate agrees and the sink call
sequences concatenate, so state carries over correctly between batched
calls. -/
theorem process_frames_batching (g : NG.NoiseGate) (a b : List NG.Frame) :
    (g.process_frames (a ++ b)).1 =
      ((g.process_frames a).1.process_frames b).1 ∧
    (g.process_frames (a ++ b)).2 =
      (g.process_frames a).2 ++
        ((g.process_frames a).1.process_frames b).2 :=
  ⟨by rw [process_frames_append], by rw [process_frames_append]⟩

/-- Claim C5: on the single-channel sequence
`[150, 150, 40, 40, 40, 40, 40, 40, 150]` with threshold `100` and release
time `2`, the gate records frames 1-5 (states `Closing 2`, `Closing 1`,
`Closing 0` after frames 3-5), emits exactly one `end_of_transmission`
when frame 6 closes the gate (frame 6 not recorded), makes no sink call
for frames 7-8, and records frame 9 with no preceding
`end_of_transmission`. -/
theorem end_to_end_example :
    ((NG.NoiseGate.new 100 2).process_frames
        [[150], [150], [40], [40], [40], [40], [40], [40], [150]]).2 =
      [NG.Event.record [150], NG.Event.record [150], NG.Event.record [40],
        NG.Event.record [40], NG.Event.record [40],
        NG.Event.end_of_transmission, NG.Event.record [150]] ∧
    ((NG.NoiseGate.new 100 2).process_frames
        [[150], [150], [40]]).1.state = NG.State.Closing 2 ∧
    ((NG.NoiseGate.new 100 2).process_frames
        [[150], [150], [40], [40]]).1.state = NG.State.Closing 1 ∧
    ((NG.NoiseGate.new 100 2).process_frames
        [[150], [150], [40], [40], [40]]).1.state = NG.State.Closing 0 ∧
    ((NG.NoiseGate.new 100 2).process_frames
        [[150], [150], [40], [40], [40], [40]]).1.state =
      NG.State.Closed ∧
    ((NG.NoiseGate.new 100 2).process_frames
        [[150], [150], [40], [40], [40], [40]]).2 =
      ((NG.NoiseGate.new 100 2).process_frames
        [[150], [150], [40], [40], [40]]).2 ++
        [NG.Event.end_of_transmission] ∧
    ((NG.NoiseGate.new 100 2).process_frames
        [[150], [150], [40], [40], [40], [40], [40], [40]]).2 =
      ((NG.NoiseGate.new 100 2).process_frames
        [[150], [150], [40], [40], [40], [40]]).2 := by
  decide

/-- Counterexample to claim C4: with `release_time = 0` and the gate `Open`,
a single below-threshold frame does NOT yield `Closed` with the frame
unrecorded: the code moves to `Closing 0` (still open) and records the
frame. -/
theorem release_zero_claim_counterexample :
    ¬ (((NG.NoiseGate.mk 100 0 NG.State.Open).process_frames
          [[40]]).1.state = NG.State.Closed ∧
        NG.Event.record [40] ∉
          ((NG.NoiseGate.mk 100 0 NG.State.Open).process_frames
            [[40]]).2) := by
  decide

/-- Amended claim C4: with `release_time = 0` and the gate `Open`, a single
below-threshold frame moves the gate to `Closing 0` — still open — and that
frame IS recorded; the gate reaches `Closed` only on the next
below-threshold frame, which is not recorded and triggers exactly one
`end_of_transmission`. -/
theorem release_zero_amended (t : NG.Sample) (f1 f2 : NG.Frame)
    (h1 : NG.below_threshold f1 t = true)
    (h2 : NG.below_threshold f2 t = true) :
    ((NG.NoiseGate.mk t 0 NG.State.Open).process_frames [f1]).1.state =
      NG.State.Closing 0 ∧
    ((NG.NoiseGate.mk t 0 NG.State.Open).process_frames [f1]).2 =
      [NG.Event.record f1] ∧
    ((NG.NoiseGate.mk t 0 NG.State.Open).process_frames
        [f1, f2]).1.state = NG.State.Closed ∧
    ((NG.NoiseGate.mk t 0 NG.State.Open).process_frames [f1, f2]).2 =
      [NG.Event.record f1, NG.Event.end_of_transmission] := by
  simp [NG.NoiseGate.process_frames, NG.step, NG.next_state, h1, h2,
    NG.NoiseGate.is_open]

/-- Witness for the amended C4 at threshold `100` and frames `[40]`. -/
theorem release_zero_amended_witness :
    NG.below_threshold [(40 : NG.Sample)] 100 = true ∧
    ((NG.NoiseGate.mk 100 0 NG.State.Open).process_frames
        [[40], [40]]).2 =
      [NG.Event.record [40], NG.Event.end_of_transmission] :=
  ⟨by decide,
    (release_zero_amended 100 [40] [40] (by decide) (by decide)).2.2.2⟩

lemma process_frames_singleton (g : NG.NoiseGate) (f : NG.Frame) :
    g.process_frames [f] = ((NG.step g f).1, (NG.step g f).2) := by
  rw [process_frames_cons, process_frames_nil]
  simp

/-- Claim C8: `next_state` only ever sets the `Closing` counter on entry from
`Open` (to `release_time`) or decrements it by one while staying in
`Closing`; it never increases while the gate stays in `Closing`, and no
other transition produces a `Closing` state. -/
theorem remaining_samples_evolution (s : NG.State) (f : NG.Frame)
    (t : NG.Sample) (rt r' : Nat)
    (h : NG.next_state s f t rt = NG.State.Closing r') :
    (s = NG.State.Open ∧ r' = rt) ∨
    (∃ r, s = NG.State.Closing r ∧ 0 < r ∧ r' = r - 1 ∧ r' < r) := by
  cases s with
  | Open =>
    refine Or.inl ⟨rfl, ?_⟩
    simp only [NG.next_state] at h
    split at h
    · injection h with h'
      omega
    · simp at h
  | Closing r =>
    simp only [NG.next_state] at h
    split at h
    · split at h
      next => simp at h
      next hr =>
        injection h with h'
        exact Or.inr ⟨r, rfl, by omega, by omega, by omega⟩
    · simp at h
  | Closed =>
    simp only [NG.next_state] at h
    split at h <;> simp at h

/-- Witness for C8: from `Closing 2` the below-threshold frame `[40]` with
threshold `100` and release time `5` yields `Closing 1`. -/
theorem remaining_samples_evolution_witness :
    NG.next_state (NG.State.Closing 2) [40] 100 5 =
      NG.State.Closing 1 ∧
    ((NG.State.Closing 2 = NG.State.Open ∧ 1 = 5) ∨
      (∃ r, NG.State.Closing 2 = NG.State.Closing r ∧ 0 < r ∧
        1 = r - 1 ∧ 1 < r)) :=
  ⟨by decide,
    remaining_samples_evolution (NG.State.Closing 2) [40] 100 5 1
      (by decide)⟩

/-- Claim C7: when processing leaves the gate open (`Open` or `Closing`),
the sink call sequence has no trailing `end_of_transmission`: it is empty
or ends in a `record` call; and any loop iteration that emits
`end_of_transmission` does so exactly on an open-to-closed transition. -/
theorem no_trailing_end_of_transmission (g : NG.NoiseGate)
    (frames : List NG.Frame) (g0 : NG.NoiseGate) (f0 : NG.Frame)
    (h : ((g.process_frames frames).1).is_open = true) :
    ((g.process_frames frames).2 = [] ∨
      ∃ f, ((g.process_frames frames).2).getLast? =
        some (NG.Event.record f)) ∧
    ((NG.step g0 f0).2 = [] ∨
      (∃ f, (NG.step g0 f0).2 = [NG.Event.record f]) ∨
      ((NG.step g0 f0).2 = [NG.Event.end_of_transmission] ∧
        g0.is_open = true ∧ (NG.step g0 f0).1.is_open = false)) := by
  constructor
  · induction frames using List.reverseRecOn with
    | nil => exact Or.inl rfl
    | append_singleton a f _ih =>
      rw [process_frames_append, process_frames_singleton] at h ⊢
      dsimp only at h ⊢
      have hrec :
          (NG.step (g.process_frames a).1 f).2 = [NG.Event.record f] := by
        rw [step_snd, ← step_fst]
        simp [h]
      rw [hrec]
      exact Or.inr ⟨f, by simp⟩
  · rw [step_snd]
    split
    next hX => exact Or.inr (Or.inl ⟨f0, rfl⟩)
    next hX =>
      split
      next hO =>
        refine Or.inr (Or.inr ⟨rfl, hO, ?_⟩)
        rw [step_fst]
        simpa using hX
      next => exact Or.inl rfl

/-- Witness for C7: after `[[150]]` the fresh gate `(100, 2)` is open and
its single sink call is a `record`; a closed gate stepped on a silent
frame makes no call. -/
theorem no_trailing_end_of_transmission_witness :
    ((NG.NoiseGate.new 100 2).process_frames [[150]]).1.is_open = true ∧
    ((((NG.NoiseGate.new 100 2).process_frames [[150]]).2 = [] ∨
      ∃ f, (((NG.NoiseGate.new 100 2).process_frames [[150]]).2).getLast? =
        some (NG.Event.record f)) ∧
     ((NG.step (NG.NoiseGate.new 100 2) [40]).2 = [] ∨
      (∃ f, (NG.step (NG.NoiseGate.new 100 2) [40]).2 =
        [NG.Event.record f]) ∨
      ((NG.step (NG.NoiseGate.new 100 2) [40]).2 =
          [NG.Event.end_of_transmission] ∧
        (NG.NoiseGate.new 100 2).is_open = true ∧
        (NG.step (NG.NoiseGate.new 100 2) [40]).1.is_open = false))) :=
  ⟨by decide,
    no_trailing_end_of_transmission (NG.NoiseGate.new 100 2) [[150]]
      (NG.NoiseGate.new 100 2) [40] (by decide)⟩

lemma next_state_closing_le (s : NG.State) (f : NG.Frame) (t : NG.Sample)
    (rt : Nat) (hs : ∀ r, s = NG.State.Closing r → r ≤ rt) :
    ∀ r', NG.next_state s f t rt = NG.State.Closing r' → r' ≤ rt := by
  intro r' h
  cases s with
  | Open =>
    simp only [NG.next_state] at h
    split at h
    · injection h with h'
      omega
    · simp at h
  | Closing r =>
    have hr := hs r rfl
    simp only [NG.next_state] at h
    split at h
    · split at h
      next => simp at h
      next =>
        injection h with h'
        omega
    · simp at h
  | Closed =>
    simp only [NG.next_state] at h
    split at h <;> simp at h

lemma process_frames_closing_le (frames : List NG.Frame)
    (g : NG.NoiseGate)
    (hs : ∀ r, g.state = NG.State.Closing r → r ≤ g.release_time) :
    ∀ r, ((g.process_frames frames).1).state = NG.State.Closing r →
      r ≤ g.release_time := by
  induction frames generalizing g with
  | nil => exact hs
  | cons f rest ih =>
    intro r h
    rw [process_frames_cons] at h
    dsimp only at h
    have hstep := step_fst g f
    have hrel : (NG.step g f).1.release_time = g.release_time := by
      rw [hstep]
    have hst : (NG.step g f).1.state =
        NG.next_state g.state f g.open_threshold g.release_time := by
      rw [hstep]
    have hs' : ∀ r', (NG.step g f).1.state = NG.State.Closing r' →
        r' ≤ (NG.step g f).1.release_time := by
      intro r' h'
      rw [hrel]
      exact next_state_closing_le g.state f g.open_threshold
        g.release_time hs r' (hst ▸ h')
    have hle := ih (NG.step g f).1 hs' r h
    rw [hrel] at hle
    exact hle

lemma process_frames_state_foldl (g : NG.NoiseGate)
    (frames : List NG.Frame) :
    ((g.process_frames frames).1).state =
      frames.foldl
        (fun s f => NG.next_state s f g.open_threshold g.release_time)
        g.state := by
  induction frames generalizing g with
  | nil => rfl
  | cons f rest ih =>
    rw [process_frames_cons]
    dsimp only
    rw [List.foldl_cons, ih ((NG.step g f).1), step_fst]

/-- Claim C10: every state reachable from the initial `Closed` state of a
gate constructed with `release_time = rt` — by `process_frames` or,
equivalently, by folding `next_state` over any frame sequence — has its
`Closing` counter bounded by `rt`. -/
theorem reachable_closing_le_release (t : NG.Sample) (rt : Nat)
    (frames : List NG.Frame) (r : Nat) :
    (((NG.NoiseGate.new t rt).process_frames frames).1.state =
        NG.State.Closing r → r ≤ rt) ∧
    (frames.foldl (fun s f => NG.next_state s f t rt) NG.State.Closed =
        NG.State.Closing r → r ≤ rt) := by
  have hs : ∀ r', (NG.NoiseGate.new t rt).state = NG.State.Closing r' →
      r' ≤ (NG.NoiseGate.new t rt).release_time := by
    intro r' h'
    exact absurd h' (by simp [NG.NoiseGate.new])
  constructor
  · intro h
    exact process_frames_closing_le frames (NG.NoiseGate.new t rt) hs r h
  · intro h
    have hf := process_frames_state_foldl (NG.NoiseGate.new t rt) frames
    refine process_frames_closing_le frames (NG.NoiseGate.new t rt) hs r ?_
    rw [hf]
    exact h

/-- Witness for C10: after `[[150], [40]]` the gate `(100, 2)` is in
`Closing 2`, and `2 ≤ 2`. -/
theorem reachable_closing_le_release_witness :
    ((NG.NoiseGate.new 100 2).process_frames [[150], [40]]).1.state =
      NG.State.Closing 2 ∧ (2 : Nat) ≤ 2 :=
  ⟨by decide,
    (reachable_closing_le_release 100 2 [[150], [40]] 2).1 (by decide)⟩
